import Mathlib

/-!
Verification of the FAT16 forensic recovery engine.

The development embeds the python sources of the repository
(FAT16Recover.py, MBR.py, Boot.py) as executable Lean functions over byte
lists and proves the stated properties of cluster-chain tracing, file
recovery, MBR/boot-sector decoding, long-file-name assembly and directory
classification against them.  Byte buffers are modelled as List Nat
(each element one byte); multi-byte fields are little-endian.
-/

namespace FatForensics

/-- Little-endian 16-bit read at a byte offset, as struct.unpack of a
2-byte slice; out-of-range bytes default to 0 (callers bound-check). -/
def le16 (data : List Nat) (off : Nat) : Nat :=
  data.getD off 0 + 256 * data.getD (off + 1) 0

/-- Little-endian 32-bit read at a byte offset. -/
def le32 (data : List Nat) (off : Nat) : Nat :=
  le16 data off + 65536 * le16 data (off + 2)

/-- Embedding of FAT16Recover.read_sector: seek to lba*512 and read
count*512 bytes, returning none on a short read.  A negative lba makes
the python seek raise, which the except clause turns into None. -/
def read_sector (image : List Nat) (lba : Int) (count : Nat) : Option (List Nat) :=
  if lba < 0 then none
  else
    let data := (image.drop (lba.toNat * 512)).take (512 * count)
    if data.length = 512 * count then some data else none

theorem read_sector_length {image : List Nat} {lba : Int} {count : Nat}
    {d : List Nat} (h : read_sector image lba count = some d) :
    d.length = 512 * count := by
  unfold read_sector at h
  split at h
  · exact absurd h (by simp)
  · dsimp only at h
    split at h
    · cases h
      assumption
    · exact absurd h (by simp)

/-- Loop body of FAT16Recover.trace_fat_chain.  The python loop is an
unbounded while-True; it is embedded with a fuel argument.  Fuel 65536 is
enough to never be exhausted, because the loop recurses only while the
chain has at most 65535 elements (see traceAux_fuel_congr). -/
def traceAux (fat : List Nat) : Nat → List Nat → Nat → List Nat
  | _, chain, 0 => chain
  | current_cluster, chain, fuel + 1 =>
    let offset := current_cluster * 2
    if offset + 2 > fat.length then chain
    else
      let next_cluster := le16 fat offset
      let chain' := chain ++ [current_cluster]
      if 0xFFF8 ≤ next_cluster ∧ next_cluster ≤ 0xFFFF then chain'
      else if next_cluster = 0 then chain'
      else if next_cluster = 0xFFF7 then chain'
      else if chain'.length > 65535 then chain'
      else traceAux fat next_cluster chain' fuel

/-- Embedding of FAT16Recover.trace_fat_chain. -/
def trace_fat_chain (fat : List Nat) (start_cluster : Nat) : List Nat :=
  traceAux fat start_cluster [] 65536

/-- The fuel does not influence the result as long as it dominates the
remaining loop capacity; this shows the embedding computes the value of
the unbounded python loop (which always terminates via the length cap). -/
theorem traceAux_fuel_congr (fat : List Nat) :
    ∀ f₁ f₂ current chain, chain.length ≤ 65535 →
      65536 ≤ chain.length + f₁ → 65536 ≤ chain.length + f₂ →
      traceAux fat current chain f₁ = traceAux fat current chain f₂ := by
  intro f₁
  induction f₁ with
  | zero =>
    intro f₂ current chain hlen h1 _
    omega
  | succ g ih =>
    intro f₂ current chain hlen h1 h2
    match f₂ with
    | 0 => omega
    | f + 1 =>
      simp only [traceAux]
      split
      · rfl
      · split
        · rfl
        · split
          · rfl
          · split
            · rfl
            · split
              · rfl
              · rename_i hcap
                have hlen' : (chain ++ [current]).length ≤ 65535 := by
                  simpa using Nat.not_lt.mp hcap
                apply ih
                · exact hlen'
                · simp at hlen' ⊢
                  omega
                · simp at hlen' ⊢
                  omega

/-- The chain length never exceeds 65536: the safety cap stops the loop
after the 65536th element has been appended. -/
theorem traceAux_length_le (fat : List Nat) :
    ∀ fuel current chain, chain.length ≤ 65535 →
      (traceAux fat current chain fuel).length ≤ 65536 := by
  intro fuel
  induction fuel with
  | zero =>
    intro current chain hlen
    simpa [traceAux] using Nat.le_succ_of_le hlen
  | succ g ih =>
    intro current chain hlen
    simp only [traceAux]
    split
    · exact Nat.le_succ_of_le hlen
    · split
      · simp
        omega
      · split
        · simp
          omega
        · split
          · simp
            omega
          · split
            · simp
              omega
            · rename_i hcap
              apply ih
              simpa using Nat.not_lt.mp hcap

/-- Every element of an extended chain has an in-bounds FAT offset,
provided the elements already accumulated do. -/
theorem traceAux_mem_bound (fat : List Nat) :
    ∀ fuel current chain, (∀ x ∈ chain, x * 2 + 2 ≤ fat.length) →
      ∀ x ∈ traceAux fat current chain fuel, x * 2 + 2 ≤ fat.length := by
  intro fuel
  induction fuel with
  | zero =>
    intro current chain hch
    simpa [traceAux] using hch
  | succ g ih =>
    intro current chain hch x hx
    simp only [traceAux] at hx
    have hcons : ∀ hcur : current * 2 + 2 ≤ fat.length,
        ∀ y ∈ chain ++ [current], y * 2 + 2 ≤ fat.length := by
      intro hcur y hy
      rcases List.mem_append.mp hy with h | h
      · exact hch y h
      · simp at h
        subst h
        exact hcur
    split at hx
    · exact hch x hx
    · rename_i hoff
      have hcur : current * 2 + 2 ≤ fat.length := by omega
      split at hx
      · exact hcons hcur x hx
      · split at hx
        · exact hcons hcur x hx
        · split at hx
          · exact hcons hcur x hx
          · split at hx
            · exact hcons hcur x hx
            · exact ih _ _ (hcons hcur) x hx

/-- Every element of the computed chain either was already accumulated,
is the cluster the loop currently stands on, or passed the
end-of-chain/free/bad filters of the loop. -/
theorem traceAux_mem_source (fat : List Nat) :
    ∀ fuel current chain x, x ∈ traceAux fat current chain fuel →
      x ∈ chain ∨ x = current ∨
        (x ≠ 0 ∧ x ≠ 0xFFF7 ∧ ¬(0xFFF8 ≤ x ∧ x ≤ 0xFFFF)) := by
  intro fuel
  induction fuel with
  | zero =>
    intro current chain x hx
    simp only [traceAux] at hx
    exact Or.inl hx
  | succ g ih =>
    intro current chain x hx
    simp only [traceAux] at hx
    have happ : x ∈ chain ++ [current] → x ∈ chain ∨ x = current := by
      intro h
      rcases List.mem_append.mp h with h | h
      · exact Or.inl h
      · simp at h
        exact Or.inr h
    split at hx
    · exact Or.inl hx
    · split at hx
      · rcases happ hx with h | h
        · exact Or.inl h
        · exact Or.inr (Or.inl h)
      · split at hx
        · rcases happ hx with h | h
          · exact Or.inl h
          · exact Or.inr (Or.inl h)
        · split at hx
          · rcases happ hx with h | h
            · exact Or.inl h
            · exact Or.inr (Or.inl h)
          · split at hx
            · rcases happ hx with h | h
              · exact Or.inl h
              · exact Or.inr (Or.inl h)
            · rename_i hne1 hne2 hne3 _
              rcases ih _ _ _ hx with h | h | h
              · rcases happ h with h' | h'
                · exact Or.inl h'
                · exact Or.inr (Or.inl h')
              · subst h
                exact Or.inr (Or.inr ⟨hne2, hne3, hne1⟩)
              · exact Or.inr (Or.inr h)

/-- FAT buffer of test scenario S4: the 16-bit entry of cluster 5 (bytes
10 and 11) holds 6, the entry of cluster 6 (bytes 12 and 13) holds 5. -/
def cycFat : List Nat := [0, 0, 0, 0, 0, 0, 0, 0, 0, 0, 6, 0, 5, 0]

/-- The alternating cluster sequence 5,6,5,6,... produced by the cyclic
FAT above (11 - 5 = 6 and 11 - 6 = 5). -/
def altChain : Nat → Nat → List Nat
  | 0, _ => []
  | n + 1, c => c :: altChain n (11 - c)

theorem altChain_length : ∀ n c, (altChain n c).length = n := by
  intro n
  induction n with
  | zero =>
    intro c
    rfl
  | succ m ih =>
    intro c
    simp [altChain, ih]

/-- On the cyclic FAT the loop never meets a terminator: it alternates
between clusters 5 and 6 until the length cap fires. -/
theorem cyc_traceAux :
    ∀ fuel current chain, (current = 5 ∨ current = 6) →
      chain.length + fuel = 65536 →
      traceAux cycFat current chain fuel = chain ++ altChain fuel current := by
  intro fuel
  induction fuel with
  | zero =>
    intro current chain _ _
    simp [traceAux, altChain]
  | succ g ih =>
    intro current chain hc hlen
    rcases hc with rfl | rfl
    · simp only [traceAux]
      rw [if_neg (by decide), if_neg (by decide), if_neg (by decide),
        if_neg (by decide)]
      rw [show le16 cycFat (5 * 2) = 6 from by decide]
      by_cases hg : (chain ++ [5]).length > 65535
      · rw [if_pos hg]
        have hg0 : g = 0 := by
          simp at hg
          omega
        subst hg0
        simp [altChain]
      · rw [if_neg hg]
        simp only [List.length_append, List.length_singleton] at hg
        rw [ih 6 (chain ++ [5]) (Or.inr rfl) (by simp; omega)]
        simp [altChain]
    · simp only [traceAux]
      rw [if_neg (by decide), if_neg (by decide), if_neg (by decide),
        if_neg (by decide)]
      rw [show le16 cycFat (6 * 2) = 5 from by decide]
      by_cases hg : (chain ++ [6]).length > 65535
      · rw [if_pos hg]
        have hg0 : g = 0 := by
          simp at hg
          omega
        subst hg0
        simp [altChain]
      · rw [if_neg hg]
        simp only [List.length_append, List.length_singleton] at hg
        rw [ih 5 (chain ++ [6]) (Or.inl rfl) (by simp; omega)]
        simp [altChain]

/-- C1 counterexample: on the FAT where cluster 5 maps to 6 and cluster 6
maps back to 5, chain(5) does not terminate at length at most 2, and the
third element repeats cluster 5, so traversal does not stop on reaching a
cluster already present in the chain. -/
theorem cycle_not_detected_cex :
    ¬ ((trace_fat_chain cycFat 5).length ≤ 2) ∧
      (trace_fat_chain cycFat 5).take 3 = [5, 6, 5] := by
  have h : trace_fat_chain cycFat 5 = altChain 65536 5 := by
    have := cyc_traceAux 65536 5 [] (Or.inl rfl) (by simp)
    simpa [trace_fat_chain] using this
  rw [h]
  constructor
  · rw [altChain_length]
    omega
  · decide

/-- C1 (amended): the loop has no cycle detection; for the FAT in which
cluster 5 maps to 6 and 6 maps back to 5, chain(5) alternates 5,6,5,6,...
and terminates only through the safety cap, with exactly 65536 elements
and no cycle flag. -/
theorem cycle_cap_behavior :
    trace_fat_chain cycFat 5 = altChain 65536 5 ∧
      (trace_fat_chain cycFat 5).length = 65536 := by
  have h : trace_fat_chain cycFat 5 = altChain 65536 5 := by
    have := cyc_traceAux 65536 5 [] (Or.inl rfl) (by simp)
    simpa [trace_fat_chain] using this
  exact ⟨h, by rw [h, altChain_length]⟩

/-- C3 counterexample: the cyclic FAT drives chain(5) to 65536 elements,
one more than the claimed hard cap of 65535. -/
theorem chain_cap_cex : ¬ ((trace_fat_chain cycFat 5).length ≤ 65535) := by
  have h : trace_fat_chain cycFat 5 = altChain 65536 5 := by
    have := cyc_traceAux 65536 5 [] (Or.inl rfl) (by simp)
    simpa [trace_fat_chain] using this
  rw [h, altChain_length]
  omega

/-- C3 (amended): chain(s) always terminates and returns at most 65536
clusters; the safety break fires only after the 65536th element has been
appended, so the achievable bound is 65536, not 65535. -/
theorem chain_length_bound (fat : List Nat) (s : Nat) :
    (trace_fat_chain fat s).length ≤ 65536 :=
  traceAux_length_le fat 65536 s [] (by simp)

/-- C2 counterexample: on a 2-byte FAT whose entry 0 is free (0x0000),
chain(0) is [0]: the start cluster 0 is below 2 yet the chain is not
empty and contains a value outside 2..max_cluster. -/
theorem chain_low_start_cex :
    trace_fat_chain [0, 0] 0 = [0] ∧
      ¬ (∀ c ∈ trace_fat_chain [0, 0] 0, 2 ≤ c) ∧
      trace_fat_chain [0, 0] 0 ≠ [] := by
  refine ⟨?_, ?_, ?_⟩ <;> decide

/-- C2 (amended): every element of chain(s) has its 2-byte FAT offset in
bounds, and every element other than the start cluster is none of 0x0000,
0xFFF7 and 0xFFF8..0xFFFF; the start cluster itself is not validated (a
start below 2 still yields a nonempty chain when its offset is in range)
and the reserved values 0x0001, 0xFFF0..0xFFF6 are not filtered. -/
theorem chain_element_invariant (fat : List Nat) (s x : Nat)
    (hx : x ∈ trace_fat_chain fat s) :
    x * 2 + 2 ≤ fat.length ∧
      (x = s ∨ (x ≠ 0 ∧ x ≠ 0xFFF7 ∧ ¬(0xFFF8 ≤ x ∧ x ≤ 0xFFFF))) := by
  constructor
  · exact traceAux_mem_bound fat 65536 s [] (by simp) x hx
  · rcases traceAux_mem_source fat 65536 s [] x hx with h | h | h
    · simp at h
    · exact Or.inl h
    · exact Or.inr h

theorem chain_element_invariant_witness :
    (0 : Nat) ∈ trace_fat_chain [0, 0] 0 ∧
      (0 * 2 + 2 ≤ ([0, 0] : List Nat).length ∧
        ((0 : Nat) = 0 ∨
          ((0 : Nat) ≠ 0 ∧ (0 : Nat) ≠ 0xFFF7 ∧
            ¬(0xFFF8 ≤ (0 : Nat) ∧ (0 : Nat) ≤ 0xFFFF)))) :=
  ⟨by decide, chain_element_invariant [0, 0] 0 0 (by decide)⟩

/-- One step of the loop when the entry offset is out of range: the
bounds check breaks immediately and the accumulated chain is returned. -/
theorem traceAux_succ_oob (fat : List Nat) (current : Nat) (chain : List Nat)
    (g : Nat) (h : current * 2 + 2 > fat.length) :
    traceAux fat current chain (g + 1) = chain := by
  simp only [traceAux]
  rw [if_pos h]

/-- C10: when the start cluster's 2-byte FAT offset lies beyond the
loaded FAT buffer, the bounds check fires before any access and the
result is the empty chain, which does not contain the start cluster. -/
theorem trace_out_of_range_empty (fat : List Nat) (s : Nat)
    (h : s * 2 + 2 > fat.length) :
    trace_fat_chain fat s = [] ∧ s ∉ trace_fat_chain fat s := by
  have he : trace_fat_chain fat s = [] := by
    unfold trace_fat_chain
    rw [show (65536 : Nat) = 65535 + 1 from rfl]
    exact traceAux_succ_oob fat s [] 65535 h
  rw [he]
  simp

theorem trace_out_of_range_empty_witness :
    0 * 2 + 2 > ([] : List Nat).length ∧
      (trace_fat_chain [] 0 = [] ∧ 0 ∉ trace_fat_chain [] 0) :=
  ⟨by decide, trace_out_of_range_empty [] 0 (by decide)⟩

/-- The global disk parameters populated by FAT16Recover.setup_disk_params. -/
structure DiskParams where
  partition_start_lba : Nat
  reserved_sectors : Nat
  num_fats : Nat
  fat_size_sectors : Nat
  root_dir_sectors : Nat
  sectors_per_cluster : Nat
  fat1_start_lba : Nat
  root_dir_start_lba : Nat
  data_region_start_lba : Nat
  global_fat_data : List Nat
deriving Repr, DecidableEq

/-- LBA of a data cluster as computed in FAT16Recover.recover_file:
DATA_REGION_START_LBA + (cluster - 2) * SECTORS_PER_CLUSTER, over the
integers since a cluster below 2 makes the python expression negative. -/
def cluster_lba (params : DiskParams) (cluster : Nat) : Int :=
  (params.data_region_start_lba : Int) +
    ((cluster : Int) - 2) * (params.sectors_per_cluster : Int)

/-- Bytes delivered by a successful read of a cluster. -/
def cluster_payload (image : List Nat) (params : DiskParams) (cluster : Nat) :
    List Nat :=
  (read_sector image (cluster_lba params cluster) params.sectors_per_cluster).getD []

/-- Body of the for-loop of FAT16Recover.recover_file: walks the cluster
chain accumulating (bytes_recovered, bytes written so far).  A failed or
empty cluster read breaks the loop; the write of each cluster is trimmed
to min(bytes_per_cluster, file_size - bytes_recovered) and the loop stops
once bytes_recovered reaches file_size. -/
def recoverLoop (image : List Nat) (params : DiskParams) (file_size : Nat) :
    List Nat → Nat → List Nat → Nat × List Nat
  | [], bytes_recovered, out => (bytes_recovered, out)
  | cluster :: rest, bytes_recovered, out =>
    match read_sector image (cluster_lba params cluster) params.sectors_per_cluster with
    | none => (bytes_recovered, out)
    | some cluster_data =>
      if cluster_data = [] then (bytes_recovered, out)
      else
        let bytes_per_cluster := params.sectors_per_cluster * 512
        let bytes_remaining := file_size - bytes_recovered
        let bytes_to_write := min bytes_per_cluster bytes_remaining
        let out' := out ++ cluster_data.take bytes_to_write
        let recovered' := bytes_recovered + bytes_to_write
        if recovered' ≥ file_size then (recovered', out')
        else recoverLoop image params file_size rest recovered' out'

/-- Embedding of FAT16Recover.recover_file.  The boolean mirrors the
python return value; the list is the byte content of the host file the
function wrote (empty when it returns before opening the output). -/
def recover_file (image : List Nat) (params : DiskParams)
    (start_cluster file_size : Nat) : Bool × List Nat :=
  if start_cluster < 2 ∨ file_size = 0 then (false, [])
  else
    let cluster_chain := trace_fat_chain params.global_fat_data start_cluster
    if cluster_chain = [] then (false, [])
    else (true, (recoverLoop image params file_size cluster_chain 0 []).2)

/-- A successful cluster read delivers the payload bytes. -/
theorem cluster_payload_eq {image : List Nat} {params : DiskParams}
    {c : Nat} {d : List Nat}
    (h : read_sector image (cluster_lba params c) params.sectors_per_cluster = some d) :
    cluster_payload image params c = d := by
  unfold cluster_payload
  rw [h]
  rfl

/-- Total length of the payloads of a chain whose reads all succeed. -/
theorem payload_join_length (image : List Nat) (params : DiskParams) :
    ∀ chain : List Nat,
      (∀ c ∈ chain,
        (read_sector image (cluster_lba params c) params.sectors_per_cluster).isSome) →
      ((chain.map (cluster_payload image params)).flatten).length =
        chain.length * (512 * params.sectors_per_cluster) := by
  intro chain
  induction chain with
  | nil =>
    intro _
    simp
  | cons c rest ih =>
    intro hr
    obtain ⟨d, hd⟩ := Option.isSome_iff_exists.mp (hr c (by simp))
    have hdl : d.length = 512 * params.sectors_per_cluster := read_sector_length hd
    have ihh := ih (fun x hx => hr x (by simp [hx]))
    simp only [List.map_cons, List.flatten_cons, List.length_append, List.length_cons]
    rw [cluster_payload_eq hd, hdl, ihh]
    ring

/-- When every cluster read succeeds and the chain supplies at least the
missing bytes, the loop writes exactly the leading missing bytes of the
concatenated payloads. -/
theorem recoverLoop_exact (image : List Nat) (params : DiskParams) (N : Nat) :
    ∀ (chain : List Nat) (recovered : Nat) (out : List Nat),
      (∀ c ∈ chain,
        (read_sector image (cluster_lba params c) params.sectors_per_cluster).isSome) →
      1 ≤ params.sectors_per_cluster →
      recovered < N →
      N - recovered ≤ chain.length * (params.sectors_per_cluster * 512) →
      recoverLoop image params N chain recovered out =
        (N, out ++ ((chain.map (cluster_payload image params)).flatten.take (N - recovered))) := by
  intro chain
  induction chain with
  | nil =>
    intro recovered out _ _ hlt hsup
    simp at hsup
    omega
  | cons c rest ih =>
    intro recovered out hr hspc hlt hsup
    obtain ⟨d, hd⟩ := Option.isSome_iff_exists.mp (hr c (by simp))
    have hdl : d.length = 512 * params.sectors_per_cluster := read_sector_length hd
    have hdne : ¬ d = [] := by
      intro h
      rw [h] at hdl
      simp at hdl
      omega
    simp only [recoverLoop]
    rw [hd]
    simp only [hdne, if_false]
    simp only [List.length_cons, Nat.succ_mul] at hsup
    by_cases hstop :
      recovered + min (params.sectors_per_cluster * 512) (N - recovered) ≥ N
    · rw [if_pos hstop]
      have hmin : min (params.sectors_per_cluster * 512) (N - recovered) =
          N - recovered := by omega
      rw [hmin]
      have hrec : recovered + (N - recovered) = N := by omega
      rw [hrec]
      simp only [List.map_cons, List.flatten_cons]
      rw [cluster_payload_eq hd, List.take_append_eq_append_take]
      have h0 : N - recovered - d.length = 0 := by omega
      rw [h0]
      simp
    · rw [if_neg hstop]
      have hmin : min (params.sectors_per_cluster * 512) (N - recovered) =
          params.sectors_per_cluster * 512 := by omega
      rw [hmin]
      have htake : d.take (params.sectors_per_cluster * 512) = d := by
        rw [List.take_of_length_le]
        omega
      rw [htake]
      rw [ih (recovered + params.sectors_per_cluster * 512) (out ++ d)
        (fun x hx => hr x (by simp [hx])) hspc (by omega) (by omega)]
      simp only [List.map_cons, List.flatten_cons]
      rw [cluster_payload_eq hd, List.take_append_eq_append_take]
      have htk : d.take (N - recovered) = d := by
        rw [List.take_of_length_le]
        omega
      rw [htk]
      have harith : N - recovered - d.length =
          N - (recovered + params.sectors_per_cluster * 512) := by omega
      rw [harith, List.append_assoc]

/-- C4: when the recorded size is positive, the start cluster is valid,
the traced chain is nonempty and supplies at least file_size payload
bytes, and every cluster read succeeds, the recovery writes exactly the
first file_size bytes of the concatenated cluster payloads and the host
file length equals file_size (the final cluster slack is trimmed). -/
theorem recover_exact_bytes (image : List Nat) (params : DiskParams)
    (s N : Nat)
    (hN : 0 < N)
    (hs : 2 ≤ s)
    (hchain : trace_fat_chain params.global_fat_data s ≠ [])
    (hspc : 1 ≤ params.sectors_per_cluster)
    (hreads : ∀ c ∈ trace_fat_chain params.global_fat_data s,
      (read_sector image (cluster_lba params c) params.sectors_per_cluster).isSome)
    (hsup : N ≤ (trace_fat_chain params.global_fat_data s).length *
      (params.sectors_per_cluster * 512)) :
    (recover_file image params s N).1 = true ∧
      (recover_file image params s N).2 =
        ((trace_fat_chain params.global_fat_data s).map
          (cluster_payload image params)).flatten.take N ∧
      (recover_file image params s N).2.length = N := by
  have hguard : ¬ (s < 2 ∨ N = 0) := by omega
  have hloop := recoverLoop_exact image params N
    (trace_fat_chain params.global_fat_data s) 0 [] hreads hspc hN
    (by simpa using hsup)
  have hrf : recover_file image params s N =
      (true, ((trace_fat_chain params.global_fat_data s).map
        (cluster_payload image params)).flatten.take N) := by
    unfold recover_file
    rw [if_neg hguard]
    dsimp only
    rw [if_neg hchain, hloop]
    simp
  rw [hrf]
  refine ⟨rfl, rfl, ?_⟩
  simp only [List.length_take]
  rw [payload_join_length image params _ hreads]
  have hcomm : (trace_fat_chain params.global_fat_data s).length *
      (512 * params.sectors_per_cluster) =
      (trace_fat_chain params.global_fat_data s).length *
      (params.sectors_per_cluster * 512) := by ring
  rw [hcomm]
  omega

/-- FAT buffer of test scenario S3 restricted to two clusters: cluster 2
maps to 3, cluster 3 carries the end-of-chain marker 0xFFFF. -/
def fatDemo : List Nat := [0, 0, 0, 0, 3, 0, 0xFF, 0xFF]

/-- Minimal geometry with one 512-byte sector per cluster and the data
region starting at LBA 0, over the two-cluster FAT above. -/
def paramsDemo : DiskParams :=
  { partition_start_lba := 0
    reserved_sectors := 0
    num_fats := 0
    fat_size_sectors := 0
    root_dir_sectors := 0
    sectors_per_cluster := 1
    fat1_start_lba := 0
    root_dir_start_lba := 0
    data_region_start_lba := 0
    global_fat_data := fatDemo }

/-- An image holding the full payloads of clusters 2 and 3. -/
def image1024 : List Nat := List.replicate 1024 7

/-- An image holding only the payload of cluster 2, so the read of
cluster 3 fails. -/
def image512 : List Nat := List.replicate 512 7

set_option maxRecDepth 200000 in
theorem recover_exact_bytes_witness :
    0 < 600 ∧
      ((recover_file image1024 paramsDemo 2 600).1 = true ∧
        (recover_file image1024 paramsDemo 2 600).2 =
          ((trace_fat_chain paramsDemo.global_fat_data 2).map
            (cluster_payload image1024 paramsDemo)).flatten.take 600 ∧
        (recover_file image1024 paramsDemo 2 600).2.length = 600) :=
  ⟨by decide,
    recover_exact_bytes image1024 paramsDemo 2 600 (by decide) (by decide)
      (by decide) (by decide) (by decide) (by decide)⟩

set_option maxRecDepth 200000 in
/-- C5 counterexample: over the chain [2, 3] with a 512-byte image, the
read of cluster 3 fails mid-stream; the loop truncates the output at the
512 bytes already written, but recover_file still returns True, the same
outcome as a complete recovery, with no PartialRecovery report. -/
theorem midstream_read_success_cex :
    read_sector image512 (cluster_lba paramsDemo 3) paramsDemo.sectors_per_cluster
        = none ∧
      trace_fat_chain paramsDemo.global_fat_data 2 = [2, 3] ∧
      (recover_file image512 paramsDemo 2 600).1 = true ∧
      (recover_file image512 paramsDemo 2 600).2.length = 512 ∧
      (512 : Nat) < 600 := by
  refine ⟨?_, ?_, ?_, ?_, ?_⟩ <;> decide

/-- C5 (amended): when a cluster read fails mid-stream the loop stops,
leaving the output truncated at the bytes already written, and the
failure is not propagated; but the outcome is reported as a successful
recovery (True) whenever the chain was nonempty, indistinguishable from a
complete recovery, rather than as a distinct PartialRecovery outcome. -/
theorem midstream_failure_behavior :
    (∀ (image : List Nat) (params : DiskParams) (N c : Nat) (rest : List Nat)
        (recovered : Nat) (out : List Nat),
      read_sector image (cluster_lba params c) params.sectors_per_cluster = none →
      recoverLoop image params N (c :: rest) recovered out = (recovered, out)) ∧
    (∀ (image : List Nat) (params : DiskParams) (s N : Nat),
      2 ≤ s → N ≠ 0 →
      trace_fat_chain params.global_fat_data s ≠ [] →
      (recover_file image params s N).1 = true) := by
  constructor
  · intro image params N c rest recovered out hfail
    simp only [recoverLoop]
    rw [hfail]
  · intro image params s N hs hN hchain
    unfold recover_file
    rw [if_neg (by omega)]
    dsimp only
    rw [if_neg hchain]

set_option maxRecDepth 200000 in
theorem midstream_failure_behavior_witness :
    recoverLoop image512 paramsDemo 600 [3] 512 [] = (512, []) ∧
      (recover_file image512 paramsDemo 2 600).1 = true :=
  ⟨midstream_failure_behavior.1 image512 paramsDemo 600 3 [] 512 [] (by decide),
    midstream_failure_behavior.2 image512 paramsDemo 2 600 (by decide) (by decide)
      (by decide)⟩

/-- One decoded 16-byte MBR partition entry of MBR.parse_mbr. -/
structure PartitionInfo where
  index : Nat
  bootable : Bool
  type_id : Nat
  start_lba : Nat
  size_sectors : Nat
deriving Repr, DecidableEq

/-- Result of MBR.parse_mbr. -/
structure MBRResult where
  signature_valid : Bool
  partitions : List PartitionInfo
deriving Repr, DecidableEq

/-- Embedding of MBR.read_mbr_from_file: the first 512 bytes of the
image, or none when the file holds fewer. -/
def read_mbr_from_file (image : List Nat) : Option (List Nat) :=
  let mbr_data := image.take 512
  if mbr_data.length ≠ 512 then none else some mbr_data

/-- Embedding of MBR.parse_mbr: none models the ValueError raised when
the buffer is not exactly 512 bytes; a bad signature only clears
signature_valid (with a printed warning), and all-zero partition slots
are skipped. -/
def parse_mbr (mbr_data : List Nat) : Option MBRResult :=
  if mbr_data.length ≠ 512 then none
  else
    let signature_valid := decide ((mbr_data.drop 0x1FE).take 2 = [0x55, 0xAA])
    let partition_table := (mbr_data.drop 0x1BE).take (0x1FE - 0x1BE)
    let partitions := (List.range 4).filterMap (fun i =>
      let entry_data := (partition_table.drop (i * 16)).take 16
      if entry_data = List.replicate 16 0 then none
      else some
        { index := i + 1
          bootable := decide (entry_data.getD 0 0 = 0x80)
          type_id := entry_data.getD 4 0
          start_lba := le32 entry_data 8
          size_sectors := le32 entry_data 12 })
    some { signature_valid := signature_valid, partitions := partitions }

/-- Parameter block decoded by Boot.parse_fat16_boot_sector. -/
structure BootParams where
  bytes_per_sector : Nat
  sectors_per_cluster : Nat
  reserved_sectors : Nat
  num_fats : Nat
  root_entry_count : Nat
  root_size_bytes : Nat
  root_size_sectors : Nat
  fat_size_sectors : Nat
  total_sectors : Nat
  first_fat_sector : Nat
  root_dir_sector : Nat
  data_region_sector : Nat
deriving Repr, DecidableEq

/-- Result of Boot.parse_fat16_boot_sector. -/
structure BootResult where
  signature_valid : Bool
  parameters : BootParams
deriving Repr, DecidableEq

/-- Embedding of Boot.parse_fat16_boot_sector: none models the
ValueError for a buffer that is not 512 bytes and the uncaught
ZeroDivisionError of the ceiling division when bytes_per_sector is 0.
No BPB field is otherwise validated. -/
def parse_fat16_boot_sector (boot_data : List Nat)
    (partition_start_lba : Nat) : Option BootResult :=
  if boot_data.length ≠ 512 then none
  else
    let bytes_per_sector := le16 boot_data 0x0B
    if bytes_per_sector = 0 then none
    else
      let sectors_per_cluster := boot_data.getD 0x0D 0
      let reserved_sectors := le16 boot_data 0x0E
      let num_fats := boot_data.getD 0x10 0
      let root_entry_count := le16 boot_data 0x11
      let root_size_bytes := root_entry_count * 32
      let root_size_sectors :=
        (root_size_bytes + bytes_per_sector - 1) / bytes_per_sector
      let fat_size_sectors := le16 boot_data 0x16
      let total_sectors_small := le16 boot_data 0x13
      let total_sectors :=
        if total_sectors_small ≠ 0 then total_sectors_small
        else le32 boot_data 0x20
      let first_fat_sector := partition_start_lba + reserved_sectors
      let root_dir_sector := first_fat_sector + num_fats * fat_size_sectors
      let data_region_sector := root_dir_sector + root_size_sectors
      some
        { signature_valid :=
            decide ((boot_data.drop 0x1FE).take 2 = [0x55, 0xAA])
          parameters :=
            { bytes_per_sector := bytes_per_sector
              sectors_per_cluster := sectors_per_cluster
              reserved_sectors := reserved_sectors
              num_fats := num_fats
              root_entry_count := root_entry_count
              root_size_bytes := root_size_bytes
              root_size_sectors := root_size_sectors
              fat_size_sectors := fat_size_sectors
              total_sectors := total_sectors
              first_fat_sector := first_fat_sector
              root_dir_sector := root_dir_sector
              data_region_sector := data_region_sector } }

/-- Embedding of FAT16Recover.setup_disk_params: parses the MBR (abort
on a missing 0x55 0xAA signature), reads the VBR of the first partition,
derives the geometry with sector size fixed at 512, and loads the FAT.
The emptiness checks mirror the python truthiness tests on read results;
none models a return of False. -/
def setup_disk_params (image : List Nat) : Option DiskParams :=
  match read_sector image 0 1 with
  | none => none
  | some mbr_data =>
    if mbr_data = [] then none
    else if ¬ ((mbr_data.drop 0x1FE).take 2 = [0x55, 0xAA]) then none
    else
      let start_lba := le32 mbr_data (0x1BE + 8)
      match read_sector image (start_lba : Int) 1 with
      | none => none
      | some vbr_data =>
        if vbr_data = [] then none
        else
          let sectors_per_cluster := vbr_data.getD 0x0D 0
          let reserved_sectors := le16 vbr_data 0x0E
          let num_fats := vbr_data.getD 0x10 0
          let root_entries := le16 vbr_data 0x11
          let fat_size_sectors := le16 vbr_data 0x16
          let root_dir_sectors := (root_entries * 32 + 512 - 1) / 512
          let fat1_start_lba := start_lba + reserved_sectors
          let root_dir_start_lba := fat1_start_lba + num_fats * fat_size_sectors
          let data_region_start_lba := root_dir_start_lba + root_dir_sectors
          match read_sector image (fat1_start_lba : Int) fat_size_sectors with
          | none => none
          | some fat =>
            if fat = [] then none
            else
              some
                { partition_start_lba := start_lba
                  reserved_sectors := reserved_sectors
                  num_fats := num_fats
                  fat_size_sectors := fat_size_sectors
                  root_dir_sectors := root_dir_sectors
                  sectors_per_cluster := sectors_per_cluster
                  fat1_start_lba := fat1_start_lba
                  root_dir_start_lba := root_dir_start_lba
                  data_region_start_lba := data_region_start_lba
                  global_fat_data := fat }

/-- MBR sector with signature: partition 1 start_lba = 1 (byte 0x1C6),
signature 0x55 0xAA at 0x1FE. -/
def mbrSector : List Nat :=
  (((List.replicate 512 0).set 0x1C6 1).set 0x1FE 0x55).set 0x1FF 0xAA

/-- The same MBR sector without the 0x55 0xAA signature. -/
def mbrSectorNoSig : List Nat := (List.replicate 512 0).set 0x1C6 1

/-- VBR with 512-byte sectors, sectors_per_cluster 1, reserved 1, one
FAT of one sector, 16 root entries. -/
def vbrSector : List Nat :=
  ((((((List.replicate 512 0).set 0x0C 2).set 0x0D 1).set 0x0E 1).set
    0x10 1).set 0x11 16).set 0x16 1

/-- The same VBR with the invalid sectors_per_cluster value 3 (not a
power of two). -/
def vbrSectorBadGeo : List Nat :=
  ((((((List.replicate 512 0).set 0x0C 2).set 0x0D 3).set 0x0E 1).set
    0x10 1).set 0x11 16).set 0x16 1

/-- A one-sector FAT image region. -/
def fatSector : List Nat := List.replicate 512 0

/-- A 3-sector image: signed MBR, valid VBR, FAT. -/
def imgSig : List Nat := mbrSector ++ vbrSector ++ fatSector

/-- The same image with the MBR signature absent. -/
def imgNoSig : List Nat := mbrSectorNoSig ++ vbrSector ++ fatSector

/-- The signed image whose VBR carries sectors_per_cluster = 3. -/
def imgBadGeo : List Nat := mbrSector ++ vbrSectorBadGeo ++ fatSector

/-- Geometry that setup_disk_params derives from imgSig. -/
def paramsSig : DiskParams :=
  { partition_start_lba := 1
    reserved_sectors := 1
    num_fats := 1
    fat_size_sectors := 1
    root_dir_sectors := 1
    sectors_per_cluster := 1
    fat1_start_lba := 2
    root_dir_start_lba := 3
    data_region_start_lba := 4
    global_fat_data := fatSector }

/-- Geometry that setup_disk_params derives from imgBadGeo: the invalid
sectors_per_cluster = 3 is accepted unchanged. -/
def paramsBadGeo : DiskParams :=
  { partition_start_lba := 1
    reserved_sectors := 1
    num_fats := 1
    fat_size_sectors := 1
    root_dir_sectors := 1
    sectors_per_cluster := 3
    fat1_start_lba := 2
    root_dir_start_lba := 3
    data_region_start_lba := 4
    global_fat_data := fatSector }

set_option maxRecDepth 1000000 in
/-- C6 counterexample: an image of 1536 bytes that differs from a fully
decodable one only by its absent MBR signature makes setup_disk_params
abort (return failure), while the signed variant succeeds: a missing
signature does abort volume setup instead of merely warning. -/
theorem missing_signature_aborts_cex :
    512 ≤ imgNoSig.length ∧
      ((imgNoSig.take 512).drop 0x1FE).take 2 ≠ [0x55, 0xAA] ∧
      setup_disk_params imgNoSig = none ∧
      setup_disk_params imgSig = some paramsSig := by
  refine ⟨?_, ?_, ?_, ?_⟩ <;> decide

set_option maxRecDepth 1000000 in
/-- C6 (amended): the standalone MBR decoder fails only on images of
fewer than 512 bytes and records an absent signature as a warning
(signature_valid = false) without failing; volume setup, however, aborts
whenever the signature is absent. -/
theorem mbr_decode_behavior :
    (∀ image : List Nat, image.length < 512 → read_mbr_from_file image = none) ∧
      (∀ mbr_data : List Nat, mbr_data.length = 512 →
        (parse_mbr mbr_data).isSome = true) ∧
      (∀ (image mbr_data : List Nat), read_sector image 0 1 = some mbr_data →
        (mbr_data.drop 0x1FE).take 2 ≠ [0x55, 0xAA] →
        setup_disk_params image = none) := by
  refine ⟨?_, ?_, ?_⟩
  · intro image h
    unfold read_mbr_from_file
    dsimp only
    rw [if_pos]
    simp only [List.length_take]
    omega
  · intro mbr_data h
    unfold parse_mbr
    rw [if_neg (by omega)]
    rfl
  · intro image mbr_data h hsig
    have hlen : mbr_data.length = 512 * 1 := read_sector_length h
    have hne : ¬ mbr_data = [] := by
      intro he
      rw [he] at hlen
      simp at hlen
    unfold setup_disk_params
    rw [h]
    dsimp only
    rw [if_neg hne, if_pos hsig]

set_option maxRecDepth 1000000 in
theorem mbr_decode_behavior_witness :
    read_mbr_from_file [] = none ∧
      (parse_mbr (List.replicate 512 0)).isSome = true ∧
      setup_disk_params imgNoSig = none :=
  ⟨mbr_decode_behavior.1 [] (by decide),
    mbr_decode_behavior.2.1 (List.replicate 512 0) (by decide),
    mbr_decode_behavior.2.2 imgNoSig mbrSectorNoSig (by decide) (by decide)⟩

set_option maxRecDepth 1000000 in
/-- C7 counterexample: a boot sector with sectors_per_cluster = 3, a
value outside {1,2,4,8,16,32,64,128}, does not make volume setup fail;
setup_disk_params accepts it and proceeds with the invalid geometry. -/
theorem invalid_geometry_accepted_cex :
    setup_disk_params imgBadGeo = some paramsBadGeo ∧
      paramsBadGeo.sectors_per_cluster = 3 ∧
      ¬ ((3 : Nat) = 1 ∨ (3 : Nat) = 2 ∨ (3 : Nat) = 4 ∨ (3 : Nat) = 8 ∨
        (3 : Nat) = 16 ∨ (3 : Nat) = 32 ∨ (3 : Nat) = 64 ∨ (3 : Nat) = 128) := by
  refine ⟨?_, ?_, ?_⟩ <;> decide

set_option maxRecDepth 1000000 in
/-- C7 (amended): no BPB validation exists; the boot-sector decoder
succeeds on every 512-byte sector with nonzero bytes_per_sector
(regardless of sectors_per_cluster, num_fats or fat_size_sectors), and
volume setup proceeds with sectors_per_cluster = 3 instead of failing. -/
theorem no_geometry_validation :
    (∀ (boot_data : List Nat) (lba : Nat),
      boot_data.length = 512 → le16 boot_data 0x0B ≠ 0 →
      (parse_fat16_boot_sector boot_data lba).isSome = true) ∧
      setup_disk_params imgBadGeo = some paramsBadGeo := by
  constructor
  · intro boot_data lba h hbps
    unfold parse_fat16_boot_sector
    rw [if_neg (by omega)]
    dsimp only
    rw [if_neg hbps]
    rfl
  · decide

set_option maxRecDepth 1000000 in
theorem no_geometry_validation_witness :
    vbrSectorBadGeo.length = 512 ∧
      (parse_fat16_boot_sector vbrSectorBadGeo 39).isSome = true :=
  ⟨by decide, no_geometry_validation.1 vbrSectorBadGeo 39 (by decide) (by decide)⟩

/-- Pair up little-endian byte pairs into 16-bit code units, as the
UTF-16LE codec does; a dangling odd byte decodes to U+FFFD under
errors=replace. -/
def utf16Units : List Nat → List Nat
  | [] => []
  | [_] => [0xFFFD]
  | b0 :: b1 :: rest => (b0 + 256 * b1) :: utf16Units rest

/-- Decode a UTF-16 code-unit sequence to code points with
errors=replace: a surrogate pair combines, every lone surrogate unit
becomes U+FFFD, and other units pass through. -/
def utf16Decode : List Nat → List Nat
  | [] => []
  | [u] =>
    if (0xD800 ≤ u ∧ u ≤ 0xDBFF) ∨ (0xDC00 ≤ u ∧ u ≤ 0xDFFF) then [0xFFFD]
    else [u]
  | u :: v :: rest =>
    if 0xD800 ≤ u ∧ u ≤ 0xDBFF then
      if 0xDC00 ≤ v ∧ v ≤ 0xDFFF then
        (0x10000 + (u - 0xD800) * 0x400 + (v - 0xDC00)) :: utf16Decode rest
      else 0xFFFD :: utf16Decode (v :: rest)
    else if 0xDC00 ≤ u ∧ u ≤ 0xDFFF then 0xFFFD :: utf16Decode (v :: rest)
    else u :: utf16Decode (v :: rest)

/-- Leading segment up to the first NUL, as split at NUL and keep the
first piece. -/
def takeUntilNul : List Nat → List Nat
  | [] => []
  | c :: rest => if c = 0 then [] else c :: takeUntilNul rest

/-- Code points stripped by the python str.strip / rstrip defaults
(unicode whitespace). -/
def isPySpace (c : Nat) : Bool :=
  decide (c = 0x20 ∨ (0x09 ≤ c ∧ c ≤ 0x0D) ∨ (0x1C ≤ c ∧ c ≤ 0x1F) ∨
    c = 0x85 ∨ c = 0xA0 ∨ c = 0x1680 ∨ (0x2000 ≤ c ∧ c ≤ 0x200A) ∨
    c = 0x2028 ∨ c = 0x2029 ∨ c = 0x202F ∨ c = 0x205F ∨ c = 0x3000)

/-- Python str.strip: remove leading and trailing whitespace. -/
def stripList (s : List Nat) : List Nat :=
  ((s.dropWhile isPySpace).reverse.dropWhile isPySpace).reverse

/-- Python str.rstrip: remove trailing whitespace. -/
def rstripList (s : List Nat) : List Nat :=
  (s.reverse.dropWhile isPySpace).reverse

/-- Python ascii decode with errors=replace: bytes at or above 0x80
become U+FFFD. -/
def asciiReplace (bs : List Nat) : List Nat :=
  bs.map (fun b => if b < 0x80 then b else 0xFFFD)

/-- The cleanup of FAT16Recover line 266: replace the host-unsafe
characters question mark, slash and backslash by an underscore. -/
def sanitizeName (s : List Nat) : List Nat :=
  s.map (fun c => if c = 0x3F ∨ c = 0x2F ∨ c = 0x5C then 0x5F else c)

/-- Embedding of FAT16Recover.decode_lfn_fragment: gather the three
UCS-2 blocks at offsets 0x01, 0x0E and 0x1C, decode them as UTF-16LE
with replacement, cut at the first NUL and strip. -/
def decode_lfn_fragment (entry_data : List Nat) : List Nat :=
  let block1 := (entry_data.drop 0x01).take (0x0B - 0x01)
  let block2 := (entry_data.drop 0x0E).take (0x1A - 0x0E)
  let block3 := (entry_data.drop 0x1C).take (0x20 - 0x1C)
  stripList (takeUntilNul (utf16Decode (utf16Units (block1 ++ block2 ++ block3))))

/-- Lines 237-240 of FAT16Recover.parse_and_recover_directory: sort the
accumulated (sequence, text) fragments by sequence number with a stable
sort, as the python list.sort(key) does, and concatenate the texts. -/
def assemble_lfn (fragments : List (Nat × List Nat)) : List Nat :=
  ((List.insertionSort (fun a b => a.1 ≤ b.1) fragments).map Prod.snd).flatten

/-- Name resolution of FAT16Recover lines 233-266: a nonempty assembled
long name wins; otherwise the 8+3 short name is decoded, with the
deleted-entry first-byte heuristic, and the result is sanitized and
stripped. -/
def resolve_name (entry_data : List Nat) (lfn_fragments : List (Nat × List Nat))
    (is_deleted : Bool) : List Nat :=
  let lfn_name := if lfn_fragments = [] then [] else assemble_lfn lfn_fragments
  let final_name :=
    if lfn_name ≠ [] then lfn_name
    else
      let name_bytes := entry_data.take 0x0B
      let name_bytes :=
        if is_deleted then
          if name_bytes.length > 1 ∧ name_bytes.getD 1 0 = 0x5F then
            name_bytes.set 0 0x2E
          else name_bytes.set 0 0x5F
        else name_bytes
      let base_name := rstripList (asciiReplace (name_bytes.take 8))
      let ext := rstripList (asciiReplace ((name_bytes.drop 8).take 3))
      if ext ≠ [] then base_name ++ [0x2E] ++ ext else base_name
  stripList (sanitizeName final_name)

/-- What the directory walker decides to do with one accepted entry. -/
inductive EntryAction where
  | recoverFile (start_cluster file_size : Nat)
  | recurseDir (start_cluster : Nat)
deriving Repr, DecidableEq

/-- The 32-byte records of a directory data block, as the python loop
over range(len(dir_data) // 32) slices them. -/
def entriesOf (dir_data : List Nat) : List (List Nat) :=
  (List.range (dir_data.length / 32)).map
    (fun i => (dir_data.drop (32 * i)).take 32)

/-- The per-entry control flow of FAT16Recover.parse_and_recover_directory
(lines 202-296), with the recovery and recursion side effects recorded as
EntryAction values: stop at a first byte of 0, accumulate non-deleted
long-name fragments, skip deleted long-name fragments, and classify every
other record by its attribute bits, size and start cluster after
resolving its name (the fragment accumulator resets at each such record). -/
def classifyAux : List (List Nat) → List (Nat × List Nat) →
    List (List Nat × EntryAction)
  | [], _ => []
  | entry_data :: rest, lfn_fragments =>
    let first_byte := entry_data.getD 0x00 0
    let attributes := entry_data.getD 0x0B 0
    if first_byte = 0x00 then []
    else if attributes = 0x0F then
      if first_byte ≠ 0xE5 then
        classifyAux rest
          (lfn_fragments ++ [(first_byte &&& 0x1F, decode_lfn_fragment entry_data)])
      else classifyAux rest lfn_fragments
    else
      let file_size := le32 entry_data 0x1C
      let start_cluster := le16 entry_data 0x1A
      let final_name := resolve_name entry_data lfn_fragments (first_byte == 0xE5)
      if final_name = [0x2E] ∨ final_name = [0x2E, 0x2E] then classifyAux rest []
      else if attributes &&& 0x10 ≠ 0 then
        if start_cluster < 2 then classifyAux rest []
        else (final_name, EntryAction.recurseDir start_cluster) :: classifyAux rest []
      else if 0 < file_size ∧ 2 ≤ start_cluster then
        (final_name, EntryAction.recoverFile start_cluster file_size) ::
          classifyAux rest []
      else classifyAux rest []

/-- Classification of one directory data block, starting with an empty
long-name accumulator. -/
def classify_directory (dir_data : List Nat) : List (List Nat × EntryAction) :=
  classifyAux (entriesOf dir_data) []

/-- C8: long-name assembly is order independent: for fragment lists with
pairwise distinct sequence numbers, any permutation of the on-disk
fragment order assembles to the same name, the concatenation of the
texts sorted by sequence number ascending. -/
theorem lfn_assembly_order_independent (fs₁ fs₂ : List (Nat × List Nat))
    (hp : fs₁.Perm fs₂) (hnd : (fs₁.map Prod.fst).Nodup) :
    assemble_lfn fs₁ = assemble_lfn fs₂ := by
  have key : List.insertionSort (fun a b => a.1 ≤ b.1) fs₁ =
      List.insertionSort (fun a b => a.1 ≤ b.1) fs₂ := by
    haveI : IsTotal (Nat × List Nat) (fun a b => a.1 ≤ b.1) :=
      ⟨fun a b => Nat.le_total a.1 b.1⟩
    haveI : IsTrans (Nat × List Nat) (fun a b => a.1 ≤ b.1) :=
      ⟨fun _ _ _ h1 h2 => Nat.le_trans h1 h2⟩
    haveI : IsAntisymm (Nat × List Nat) (fun a b => a.1 < b.1) :=
      ⟨fun a b h h' => absurd h' (Nat.lt_asymm h)⟩
    have hperm : (List.insertionSort (fun a b => a.1 ≤ b.1) fs₁).Perm
        (List.insertionSort (fun a b => a.1 ≤ b.1) fs₂) :=
      ((List.perm_insertionSort _ fs₁).trans hp).trans
        (List.perm_insertionSort _ fs₂).symm
    have hstrict : ∀ (l : List (Nat × List Nat)), (l.map Prod.fst).Nodup →
        (List.insertionSort (fun a b => a.1 ≤ b.1) l).Pairwise
          (fun a b => a.1 < b.1) := by
      intro l hl
      have hsor : List.Sorted (fun (a b : Nat × List Nat) => a.1 ≤ b.1)
          (List.insertionSort (fun a b => a.1 ≤ b.1) l) :=
        List.sorted_insertionSort (fun (a b : Nat × List Nat) => a.1 ≤ b.1) l
      have hsor' : (List.insertionSort (fun (a b : Nat × List Nat) => a.1 ≤ b.1) l).Pairwise
          (fun a b => a.1 ≤ b.1) := hsor
      have hnodup : ((List.insertionSort (fun a b => a.1 ≤ b.1) l).map
          Prod.fst).Nodup :=
        (((List.perm_insertionSort _ l).map Prod.fst).nodup_iff).mpr hl
      have hneq : (List.insertionSort (fun a b => a.1 ≤ b.1) l).Pairwise
          (fun a b => a.1 ≠ b.1) := List.pairwise_map.mp hnodup
      exact (hsor'.and hneq).imp (fun h => Nat.lt_of_le_of_ne h.1 h.2)
    have hs₁ := hstrict fs₁ hnd
    have hs₂ := hstrict fs₂ (((hp.map Prod.fst).nodup_iff).mp hnd)
    exact List.eq_of_perm_of_sorted hperm hs₁ hs₂
  unfold assemble_lfn
  rw [key]

/-- The S5 long-name auxiliary record with sequence byte 0x42 encoding
the text o.txt. -/
def lfnEntryO : List Nat :=
  [0x42,
   0x6F, 0x00, 0x2E, 0x00, 0x74, 0x00, 0x78, 0x00, 0x74, 0x00,
   0x0F, 0x00, 0x00,
   0x00, 0x00, 0xFF, 0xFF, 0xFF, 0xFF, 0xFF, 0xFF, 0xFF, 0xFF, 0xFF, 0xFF,
   0x00, 0x00,
   0xFF, 0xFF, 0xFF, 0xFF]

/-- The S5 long-name auxiliary record with sequence byte 0x01 encoding
the text hell. -/
def lfnEntryHell : List Nat :=
  [0x01,
   0x68, 0x00, 0x65, 0x00, 0x6C, 0x00, 0x6C, 0x00, 0x00, 0x00,
   0x0F, 0x00, 0x00,
   0xFF, 0xFF, 0xFF, 0xFF, 0xFF, 0xFF, 0xFF, 0xFF, 0xFF, 0xFF, 0xFF, 0xFF,
   0x00, 0x00,
   0xFF, 0xFF, 0xFF, 0xFF]

/-- Code points of the name hello.txt. -/
def helloTxtName : List Nat :=
  [0x68, 0x65, 0x6C, 0x6C, 0x6F, 0x2E, 0x74, 0x78, 0x74]

theorem lfn_assembly_order_independent_witness :
    (([(0x42 &&& 0x1F, decode_lfn_fragment lfnEntryO),
        (0x01 &&& 0x1F, decode_lfn_fragment lfnEntryHell)] :
          List (Nat × List Nat)).Perm
      [(0x01 &&& 0x1F, decode_lfn_fragment lfnEntryHell),
        (0x42 &&& 0x1F, decode_lfn_fragment lfnEntryO)]) ∧
      assemble_lfn [(0x42 &&& 0x1F, decode_lfn_fragment lfnEntryO),
          (0x01 &&& 0x1F, decode_lfn_fragment lfnEntryHell)] =
        assemble_lfn [(0x01 &&& 0x1F, decode_lfn_fragment lfnEntryHell),
          (0x42 &&& 0x1F, decode_lfn_fragment lfnEntryO)] ∧
      assemble_lfn [(0x42 &&& 0x1F, decode_lfn_fragment lfnEntryO),
          (0x01 &&& 0x1F, decode_lfn_fragment lfnEntryHell)] = helloTxtName :=
  ⟨by decide,
    lfn_assembly_order_independent _ _ (by decide) (by decide),
    by decide⟩

/-- A short-name entry whose attribute byte is the volume label bit
0x08, with name LABEL, start cluster 2 and size 1. -/
def volLabelEntry : List Nat :=
  [0x4C, 0x41, 0x42, 0x45, 0x4C, 0x20, 0x20, 0x20, 0x20, 0x20, 0x20,
   0x08,
   0, 0, 0, 0, 0, 0, 0, 0, 0, 0, 0, 0, 0, 0,
   0x02, 0x00,
   0x01, 0x00, 0x00, 0x00]

/-- The resolved name of the volume-label entry. -/
def labelName : List Nat := [0x4C, 0x41, 0x42, 0x45, 0x4C]

/-- A directory block holding the volume-label entry and a terminator. -/
def demoDir : List Nat := volLabelEntry ++ List.replicate 32 0

/-- C9 counterexample: the walker classifies a short-name entry with the
volume-label attribute bit 0x08, nonzero size and start cluster 2 for
file recovery; volume-label entries are not skipped. -/
theorem volume_label_recovered_cex :
    volLabelEntry.getD 0x0B 0 &&& 0x08 ≠ 0 ∧
      classify_directory demoDir = [(labelName, EntryAction.recoverFile 2 1)] := by
  refine ⟨?_, ?_⟩ <;> decide

/-- Splitting a 64-byte block into its two 32-byte records. -/
theorem entriesOf_pair (e r : List Nat) (he : e.length = 32)
    (hr : r.length = 32) : entriesOf (e ++ r) = [e, r] := by
  unfold entriesOf
  rw [List.length_append, he, hr]
  rw [show ((32 + 32) / 32 : Nat) = 2 from rfl,
    show List.range 2 = [0, 1] from rfl]
  simp only [List.map_cons, List.map_nil]
  rw [show (32 * 0 : Nat) = 0 from rfl, show (32 * 1 : Nat) = 32 from rfl]
  rw [List.drop_zero, List.take_left' he, List.drop_left' he,
    List.take_of_length_le (le_of_eq hr)]

/-- C9 (amended): there is no volume-label skip: an entry whose
attribute byte has bit 0x08 set and bit 0x10 clear is treated as an
ordinary file, and is recovered exactly when its size is nonzero and its
start cluster is at least 2 (and its resolved name is not a dot entry). -/
theorem attr8_entry_classified (e : List Nat)
    (hlen : e.length = 32)
    (h0 : e.getD 0 0 ≠ 0)
    (hlfn : e.getD 0x0B 0 ≠ 0x0F)
    (hvol : e.getD 0x0B 0 &&& 0x08 ≠ 0)
    (hdir : e.getD 0x0B 0 &&& 0x10 = 0)
    (hsize : 0 < le32 e 0x1C)
    (hclu : 2 ≤ le16 e 0x1A)
    (hname1 : resolve_name e [] (e.getD 0 0 == 0xE5) ≠ [0x2E])
    (hname2 : resolve_name e [] (e.getD 0 0 == 0xE5) ≠ [0x2E, 0x2E]) :
    classify_directory (e ++ List.replicate 32 0) =
      [(resolve_name e [] (e.getD 0 0 == 0xE5),
        EntryAction.recoverFile (le16 e 0x1A) (le32 e 0x1C))] := by
  unfold classify_directory
  rw [entriesOf_pair e (List.replicate 32 0) hlen (by simp)]
  simp only [classifyAux]
  rw [if_neg h0, if_neg hlfn,
    if_neg (fun hor => Or.elim hor hname1 hname2),
    if_neg (fun h => h hdir), if_pos ⟨hsize, hclu⟩]
  rw [if_pos (show (List.replicate 32 0).getD 0 0 = 0 from by decide)]

theorem attr8_entry_classified_witness :
    classify_directory (volLabelEntry ++ List.replicate 32 0) =
      [(resolve_name volLabelEntry [] (volLabelEntry.getD 0 0 == 0xE5),
        EntryAction.recoverFile (le16 volLabelEntry 0x1A)
          (le32 volLabelEntry 0x1C))] :=
  attr8_entry_classified volLabelEntry (by decide) (by decide) (by decide)
    (by decide) (by decide) (by decide) (by decide) (by decide) (by decide)

end FatForensics
